import Mathlib

/-!
Verification of the `CNN.build` topology builder from
`CNN_Keras/cnn/neural_network_prog.py`.

The source is a single static factory: it creates an empty `Sequential`
model, appends a fixed sequence of Keras layer descriptors
(`Conv2D`, `Activation`, `MaxPooling2D`, `Flatten`, `Dense`), optionally
loads saved weights from a file path, and returns the model.

We embed the layer descriptors as an inductive type carrying exactly the
hyperparameters the source passes to each constructor, a model as the
ordered list of appended descriptors together with its parameter values
(abstracted as a type `P`), and `CNN.build` as a function mirroring the
source line by line.  The file system is abstracted as a partial map
`String → Option P` from paths to stored parameter values, and the
external framework's weight loading (`model.load_weights`) is modelled
from the spec: it replaces the model's parameters with the stored values,
and fails when the file does not exist.
-/

namespace CNNKeras

/-- Padding mode of a convolution layer (the source passes `padding="same"`). -/
inductive Padding where
  | same
  | valid
deriving DecidableEq, Repr

/-- Activation kinds used by the source (`"relu"` and `"softmax"`). -/
inductive ActivationKind where
  | relu
  | softmax
deriving DecidableEq, Repr

/-- Axis ordering for pooling (`data_format="channels_first"` in the source). -/
inductive DataFormat where
  | channels_first
  | channels_last
deriving DecidableEq, Repr

/-- A layer descriptor: one constructor per Keras layer class used by the
source, carrying the hyperparameters passed at the call site.
`conv2D` records filter count, kernel size, padding and the optional
declared `input_shape`; `maxPooling2D` records pool size, strides and
data format; `dense` records the unit count. -/
inductive Layer where
  | conv2D (filters : Nat) (kernel_size : Nat × Nat) (padding : Padding)
      (input_shape : Option (Nat × Nat × Nat))
  | activation (kind : ActivationKind)
  | maxPooling2D (pool_size : Nat × Nat) (strides : Nat × Nat)
      (data_format : DataFormat)
  | flatten
  | dense (units : Nat)
deriving DecidableEq, Repr

/-- A sequential model: the ordered list of appended layer descriptors and
the current parameter values, abstracted as a value of type `P`. -/
structure Model (P : Type) where
  layers : List Layer
  params : P
deriving DecidableEq, Repr

/-- `Sequential()` in the source: an empty model whose parameters are the
framework's fresh default initialization `init`. -/
def Sequential {P : Type} (init : P) : Model P :=
  { layers := [], params := init }

/-- `model.add(layer)`: append one layer descriptor to the container. -/
def Model.add {P : Type} (m : Model P) (l : Layer) : Model P :=
  { m with layers := m.layers ++ [l] }

/-- Error raised by the external framework's weight loading when the file
does not exist. -/
inductive LoadError where
  | fileNotFound (path : String)
deriving DecidableEq, Repr

/-- Modelled from the spec: the external framework's `model.load_weights`
routine (not part of this repository).  Per the spec, loading from a
valid saved-weights file sets the model's parameter values to exactly
the stored values, and loading from a nonexistent file fails.  The file
system is the partial map `fs` from paths to stored parameter values. -/
def load_weights {P : Type} (fs : String → Option P) (m : Model P)
    (path : String) : Except LoadError (Model P) :=
  match fs path with
  | none => .error (.fileNotFound path)
  | some stored => .ok { m with params := stored }

namespace CNN

/-- `CNN.build` from `neural_network_prog.py`, line by line.  `P` is the
abstract type of parameter values, `init` the framework's fresh random
initialization, and `fs` the file system.  Failure of the weight load
propagates out as the `Except` error, mirroring the uncaught Python
exception. -/
def build (P : Type) (width height depth total_classes : Nat) (init : P)
    (Saved_Weights_Path : Option String) (fs : String → Option P) :
    Except LoadError (Model P) :=
  let model := Sequential init
  let model := model.add (.conv2D 20 (5, 5) .same (some (depth, height, width)))
  let model := model.add (.activation .relu)
  let model := model.add (.maxPooling2D (2, 2) (2, 2) .channels_first)
  let model := model.add (.conv2D 50 (5, 5) .same none)
  let model := model.add (.activation .relu)
  let model := model.add (.maxPooling2D (2, 2) (2, 2) .channels_first)
  let model := model.add (.conv2D 100 (5, 5) .same none)
  let model := model.add (.activation .relu)
  let model := model.add (.maxPooling2D (2, 2) (2, 2) .channels_first)
  let model := model.add .flatten
  let model := model.add (.dense 500)
  let model := model.add (.activation .relu)
  let model := model.add (.dense total_classes)
  let model := model.add (.activation .softmax)
  match Saved_Weights_Path with
  | none => .ok model
  | some path => load_weights fs model path

end CNN

/-- The layer sequence `CNN.build` appends, written out as a literal list. -/
def topology (width height depth total_classes : Nat) : List Layer :=
  [ .conv2D 20 (5, 5) .same (some (depth, height, width)),
    .activation .relu,
    .maxPooling2D (2, 2) (2, 2) .channels_first,
    .conv2D 50 (5, 5) .same none,
    .activation .relu,
    .maxPooling2D (2, 2) (2, 2) .channels_first,
    .conv2D 100 (5, 5) .same none,
    .activation .relu,
    .maxPooling2D (2, 2) (2, 2) .channels_first,
    .flatten,
    .dense 500,
    .activation .relu,
    .dense total_classes,
    .activation .softmax ]

/-- The convolution layers of a layer list, in order. -/
def convLayers (ls : List Layer) : List Layer :=
  ls.filter fun l =>
    match l with
    | .conv2D _ _ _ _ => true
    | _ => false

/-- The max-pooling layers of a layer list, in order. -/
def poolLayers (ls : List Layer) : List Layer :=
  ls.filter fun l =>
    match l with
    | .maxPooling2D _ _ _ => true
    | _ => false

/-- Saving a model's weights to a path: the file system afterwards maps
that path to the model's current parameter values. -/
def save {P : Type} (m : Model P) (path : String) (fs : String → Option P) :
    String → Option P :=
  fun q => if q = path then some m.params else fs q

/- Helper lemmas shared by the claim theorems. -/

theorem build_none_eq {P : Type} (w h d c : Nat) (init : P)
    (fs : String → Option P) :
    CNN.build P w h d c init none fs = .ok ⟨topology w h d c, init⟩ :=
  rfl

theorem build_some_found {P : Type} (w h d c : Nat) (init : P) (p : String)
    (fs : String → Option P) (stored : P) (hp : fs p = some stored) :
    CNN.build P w h d c init (some p) fs = .ok ⟨topology w h d c, stored⟩ := by
  show load_weights fs ⟨topology w h d c, init⟩ p = _
  unfold load_weights
  rw [hp]

theorem build_some_missing {P : Type} (w h d c : Nat) (init : P) (p : String)
    (fs : String → Option P) (hp : fs p = none) :
    CNN.build P w h d c init (some p) fs = .error (.fileNotFound p) := by
  show load_weights fs ⟨topology w h d c, init⟩ p = _
  unfold load_weights
  rw [hp]

theorem build_ok_layers {P : Type} (w h d c : Nat) (init : P)
    (wp : Option String) (fs : String → Option P) (m : Model P)
    (hm : CNN.build P w h d c init wp fs = .ok m) :
    m.layers = topology w h d c := by
  cases wp with
  | none =>
    rw [build_none_eq] at hm
    cases hm
    rfl
  | some p =>
    cases hp : fs p with
    | none =>
      rw [build_some_missing w h d c init p fs hp] at hm
      exact absurd hm (by simp)
    | some stored =>
      rw [build_some_found w h d c init p fs stored hp] at hm
      cases hm
      rfl

/-- C1 counterexample: at the concrete call `build(28, 28, 1, 10)` with no
weights path, the model is returned with its appended layer descriptors,
but the number of appended descriptors is 14, not 11 as the claim states
(each `Activation` is its own appended descriptor). -/
theorem C1_counterexample :
    CNN.build Nat 28 28 1 10 0 none (fun _ => none)
        = .ok ⟨topology 28 28 1 10, 0⟩
      ∧ (topology 28 28 1 10).length = 14
      ∧ ¬ (topology 28 28 1 10).length = 11 :=
  ⟨rfl, rfl, by decide⟩

/-- C1 (amended): for every call `build(width, height, depth,
total_classes)` with positive arguments and no weights path, the returned
model is a container to which exactly 14 layer descriptors have been
appended, in the fixed order: three repetitions of convolution, relu
activation, 2x2 max-pooling; then flatten; then a 500-unit dense layer
followed by a relu activation; then a dense layer of size `total_classes`
followed by a softmax activation. -/
theorem C1_build_appends_fourteen_layers (P : Type) (w h d c : Nat)
    (init : P) (fs : String → Option P)
    (hw : 0 < w) (hh : 0 < h) (hd : 0 < d) (hc : 0 < c) :
    CNN.build P w h d c init none fs
        = .ok ⟨[ .conv2D 20 (5, 5) .same (some (d, h, w)),
                 .activation .relu,
                 .maxPooling2D (2, 2) (2, 2) .channels_first,
                 .conv2D 50 (5, 5) .same none,
                 .activation .relu,
                 .maxPooling2D (2, 2) (2, 2) .channels_first,
                 .conv2D 100 (5, 5) .same none,
                 .activation .relu,
                 .maxPooling2D (2, 2) (2, 2) .channels_first,
                 .flatten,
                 .dense 500,
                 .activation .relu,
                 .dense c,
                 .activation .softmax ], init⟩
      ∧ (topology w h d c).length = 14 :=
  ⟨rfl, rfl⟩

/-- C1 witness: the amended statement instantiated at `build(28, 28, 1, 10)`. -/
theorem C1_build_appends_fourteen_layers_witness :
    (0 < 28 ∧ 0 < 1 ∧ 0 < 10)
      ∧ ((topology 28 28 1 10).length = 14) :=
  ⟨⟨by decide, by decide, by decide⟩,
   (C1_build_appends_fourteen_layers Nat 28 28 1 10 0 (fun _ => none)
      (by decide) (by decide) (by decide) (by decide)).2⟩

/-- C2: for every call to `build`, the convolution layers appended to the
model are exactly three, with filter counts 20, 50 and 100 in that order,
each using a 5x5 kernel with same-padding. -/
theorem C2_conv_filters (P : Type) (w h d c : Nat) (init : P)
    (wp : Option String) (fs : String → Option P) (m : Model P)
    (hm : CNN.build P w h d c init wp fs = .ok m) :
    convLayers m.layers
      = [ .conv2D 20 (5, 5) .same (some (d, h, w)),
          .conv2D 50 (5, 5) .same none,
          .conv2D 100 (5, 5) .same none ] := by
  rw [build_ok_layers w h d c init wp fs m hm]
  rfl

/-- C2 witness: the theorem applied at `build(28, 28, 1, 10)` with no
weights path. -/
theorem C2_conv_filters_witness :
    convLayers (topology 28 28 1 10)
      = [ .conv2D 20 (5, 5) .same (some (1, 28, 28)),
          .conv2D 50 (5, 5) .same none,
          .conv2D 100 (5, 5) .same none ] :=
  C2_conv_filters Nat 28 28 1 10 0 none (fun _ => none)
    ⟨topology 28 28 1 10, 0⟩ rfl

/-- C3: for every call to `build`, the max-pooling layers appended to the
model are exactly three, and every one of them uses a 2x2 pooling window
with stride 2 in both dimensions. -/
theorem C3_pool_window_strides (P : Type) (w h d c : Nat) (init : P)
    (wp : Option String) (fs : String → Option P) (m : Model P)
    (hm : CNN.build P w h d c init wp fs = .ok m) :
    poolLayers m.layers
      = List.replicate 3 (.maxPooling2D (2, 2) (2, 2) .channels_first) := by
  rw [build_ok_layers w h d c init wp fs m hm]
  rfl

/-- C3 witness: the theorem applied at `build(28, 28, 1, 10)` with no
weights path. -/
theorem C3_pool_window_strides_witness :
    poolLayers (topology 28 28 1 10)
      = List.replicate 3 (.maxPooling2D (2, 2) (2, 2) .channels_first) :=
  C3_pool_window_strides Nat 28 28 1 10 0 none (fun _ => none)
    ⟨topology 28 28 1 10, 0⟩ rfl

/-- C4: for every call to `build`, the model's layer sequence ends with a
dense layer of exactly `total_classes` units followed by a softmax
activation (its last two descriptors are `dense total_classes` and
`activation softmax`). -/
theorem C4_final_dense_units (P : Type) (w h d c : Nat) (init : P)
    (wp : Option String) (fs : String → Option P) (m : Model P)
    (hm : CNN.build P w h d c init wp fs = .ok m) (hc : 0 < c) :
    m.layers.getLast? = some (.activation .softmax)
      ∧ m.layers.dropLast.getLast? = some (.dense c) := by
  rw [build_ok_layers w h d c init wp fs m hm]
  exact ⟨rfl, rfl⟩

/-- C4 witness: `build(28, 28, 1, 10)` ends with a dense layer of 10 units
followed by a softmax activation. -/
theorem C4_final_dense_units_witness :
    (topology 28 28 1 10).getLast? = some (.activation .softmax)
      ∧ (topology 28 28 1 10).dropLast.getLast? = some (.dense 10) :=
  C4_final_dense_units Nat 28 28 1 10 0 none (fun _ => none)
    ⟨topology 28 28 1 10, 0⟩ rfl (by decide)

/-- C5: for every call to `build`, the first layer is a convolution whose
declared input shape is exactly the triple `(depth, height, width)`, in
that (channels-first) order. -/
theorem C5_input_shape (P : Type) (w h d c : Nat) (init : P)
    (wp : Option String) (fs : String → Option P) (m : Model P)
    (hm : CNN.build P w h d c init wp fs = .ok m) :
    m.layers.head? = some (.conv2D 20 (5, 5) .same (some (d, h, w))) := by
  rw [build_ok_layers w h d c init wp fs m hm]
  rfl

/-- C5 witness: `build(28, 28, 1, 10)` declares the input shape
`(1, 28, 28)`. -/
theorem C5_input_shape_witness :
    (topology 28 28 1 10).head?
      = some (.conv2D 20 (5, 5) .same (some (1, 28, 28))) :=
  C5_input_shape Nat 28 28 1 10 0 none (fun _ => none)
    ⟨topology 28 28 1 10, 0⟩ rfl

/-- C6: when the weights path is `None`, `build` never consults the file
system (its result is the same for every file system), the returned
model's parameters are the framework-default initialization `init`, and
its layer sequence is the same one a call with a weights path appends. -/
theorem C6_none_no_load (P : Type) (w h d c : Nat) (init : P)
    (fs : String → Option P) :
    CNN.build P w h d c init none fs = .ok ⟨topology w h d c, init⟩
      ∧ (∀ fs' : String → Option P,
          CNN.build P w h d c init none fs = CNN.build P w h d c init none fs')
      ∧ (∀ (p : String) (m : Model P),
          CNN.build P w h d c init (some p) fs = .ok m
            → m.layers = topology w h d c) :=
  ⟨build_none_eq w h d c init fs,
   fun _ => rfl,
   fun p m hm => build_ok_layers w h d c init (some p) fs m hm⟩

/-- C6 witness: the theorem instantiated at `build(28, 28, 1, 10)` on the
empty file system. -/
theorem C6_none_no_load_witness :
    CNN.build Nat 28 28 1 10 0 none (fun _ => none)
      = .ok ⟨topology 28 28 1 10, 0⟩ :=
  (C6_none_no_load Nat 28 28 1 10 0 (fun _ => none)).1

/-- C7: when the weights path names a file absent from the file system,
`build` fails with the weight-loading error (`fileNotFound`, propagated
unchanged) instead of returning a default-initialized model. -/
theorem C7_missing_file_fails (P : Type) (w h d c : Nat) (init : P)
    (p : String) (fs : String → Option P) (hp : fs p = none) :
    CNN.build P w h d c init (some p) fs = .error (.fileNotFound p) :=
  build_some_missing w h d c init p fs hp

/-- C7 witness: on the empty file system, `build(28, 28, 1, 10)` with a
weights path fails with `fileNotFound`. -/
theorem C7_missing_file_fails_witness :
    CNN.build Nat 28 28 1 10 0 (some "weights.hdf5") (fun _ => none)
      = .error (.fileNotFound "weights.hdf5") :=
  C7_missing_file_fails Nat 28 28 1 10 0 "weights.hdf5" (fun _ => none) rfl

/-- C8: any two successful calls to `build` with the same geometry
arguments and the same weights-path option produce identical layer
sequences, even with different parameter types, different fresh
initializations and different file systems: only the parameter values can
differ between runs. -/
theorem C8_topology_deterministic (P Q : Type) (w h d c : Nat)
    (init₁ : P) (init₂ : Q) (wp : Option String)
    (fs₁ : String → Option P) (fs₂ : String → Option Q)
    (m₁ : Model P) (m₂ : Model Q)
    (h₁ : CNN.build P w h d c init₁ wp fs₁ = .ok m₁)
    (h₂ : CNN.build Q w h d c init₂ wp fs₂ = .ok m₂) :
    m₁.layers = m₂.layers := by
  rw [build_ok_layers w h d c init₁ wp fs₁ m₁ h₁,
      build_ok_layers w h d c init₂ wp fs₂ m₂ h₂]

/-- C8 witness: two `build(28, 28, 1, 10)` calls with different
initializations yield the same layer sequence. -/
theorem C8_topology_deterministic_witness :
    (Model.layers (P := Nat) ⟨topology 28 28 1 10, 7⟩)
      = (Model.layers (P := Nat) ⟨topology 28 28 1 10, 99⟩) :=
  C8_topology_deterministic Nat Nat 28 28 1 10 7 99 none
    (fun _ => none) (fun _ => none)
    ⟨topology 28 28 1 10, 7⟩ ⟨topology 28 28 1 10, 99⟩ rfl rfl

/-- C9: round trip.  If a model produced by `build` has its weights saved
to a path, then calling `build` again with the same geometry and that
path as the weights path returns a model whose parameter values are
exactly the stored ones, whatever fresh initialization the second call
starts from. -/
theorem C9_save_then_rebuild (P : Type) (w h d c : Nat)
    (init init' : P) (p : String) (fs fs₀ : String → Option P) (m : Model P)
    (hm : CNN.build P w h d c init none fs₀ = .ok m) :
    CNN.build P w h d c init' (some p) (save m p fs)
      = .ok ⟨topology w h d c, m.params⟩ := by
  exact build_some_found w h d c init' p (save m p fs) m.params (by
    unfold save
    rw [if_pos rfl])

/-- C9 witness: saving the parameters of a freshly built model and
rebuilding from that file reproduces them exactly. -/
theorem C9_save_then_rebuild_witness :
    CNN.build Nat 28 28 1 10 0 (some "weights.hdf5")
        (save ⟨topology 28 28 1 10, 42⟩ "weights.hdf5" (fun _ => none))
      = .ok ⟨topology 28 28 1 10, 42⟩ :=
  C9_save_then_rebuild Nat 28 28 1 10 42 0 "weights.hdf5" (fun _ => none)
    (fun _ => none) ⟨topology 28 28 1 10, 42⟩ rfl

/-- C10: axis-ordering invariant.  In every model returned by `build`, the
first layer is a convolution declaring the channels-first input shape
`(depth, height, width)`, and every max-pooling layer carries
`data_format = channels_first`, so the pooling axis convention matches
the convolution's channel ordering convention. -/
theorem C10_axis_ordering (P : Type) (w h d c : Nat) (init : P)
    (wp : Option String) (fs : String → Option P) (m : Model P)
    (hm : CNN.build P w h d c init wp fs = .ok m) :
    m.layers.head? = some (.conv2D 20 (5, 5) .same (some (d, h, w)))
      ∧ ∀ ps ss df, Layer.maxPooling2D ps ss df ∈ m.layers
          → df = .channels_first := by
  rw [build_ok_layers w h d c init wp fs m hm]
  refine ⟨rfl, fun ps ss df hmem => ?_⟩
  unfold topology at hmem
  simp only [List.mem_cons, List.mem_singleton] at hmem
  rcases hmem with h | h | h | h | h | h | h | h | h | h | h | h | h | h <;>
    first
      | (injection h with h1 h2 h3; try exact h3)
      | exact absurd h (by simp)

/-- C10 witness: the theorem instantiated at `build(28, 28, 1, 10)`. -/
theorem C10_axis_ordering_witness :
    (topology 28 28 1 10).head?
      = some (.conv2D 20 (5, 5) .same (some (1, 28, 28))) :=
  (C10_axis_ordering Nat 28 28 1 10 0 none (fun _ => none)
    ⟨topology 28 28 1 10, 0⟩ rfl).1

end CNNKeras
